import Mathlib

/-!
Verification of the ESP8266 platform plugin
(`esphome/components/esp8266/__init__.py`): a shallow embedding of its
configuration normalization, version resolution, build-context population
and directive-emission logic, with theorems about the properties the
design document states.
-/

namespace Esp8266

/-- Embeds `cv.Version`: an ordered (major, minor, patch) triple.
The class itself lives in `esphome/config_validation.py` (not under src/);
the design doc (§4.1) describes it as an immutable triple with
lexicographic total ordering and canonical `"major.minor.patch"` form. -/
structure Version where
  major : Nat
  minor : Nat
  patch : Nat
deriving DecidableEq, Repr

/-- Lexicographic `<=` on versions, as Python tuple comparison gives. -/
def Version.le (a b : Version) : Bool :=
  if a.major ≠ b.major then a.major < b.major
  else if a.minor ≠ b.minor then a.minor < b.minor
  else a.patch ≤ b.patch

/-- Lexicographic `>=` on versions. -/
def Version.ge (a b : Version) : Bool :=
  Version.le b a

/-- The decimal value of an ASCII digit. -/
def charDigit? (c : Char) : Option Nat :=
  if '0' ≤ c ∧ c ≤ '9' then some (c.toNat - '0'.toNat) else none

/-- The number denoted by a non-empty, all-digit character list. -/
def digitsToNat? (cs : List Char) : Option Nat :=
  match cs with
  | [] => none
  | _ => cs.foldl (fun acc c =>
      match acc, charDigit? c with
      | some n, some d => some (n * 10 + d)
      | _, _ => none) (some 0)

/-- Split a character list at every `'.'` (Python `str.split(".")`). -/
def splitDots : List Char → List (List Char)
  | [] => [[]]
  | c :: rest =>
    let r := splitDots rest
    if c = '.' then [] :: r
    else
      match r with
      | [] => [[c]]
      | seg :: segs => (c :: seg) :: segs

/-- ASCII upper-casing of a string (Python `str.upper()`). -/
def toUpperStr (s : String) : String := String.mk (s.data.map Char.toUpper)

/-- ASCII lower-casing of a string (Python `str.lower()`). -/
def toLowerStr (s : String) : String := String.mk (s.data.map Char.toLower)

/-- Modelled from the spec: `cv.Version.parse` is not under src/; §4.1 says
it parses `"<major>.<minor>.<patch>"` and fails on a non-numeric segment
or a wrong segment count. -/
def Version.parse (s : String) : Option Version :=
  match splitDots s.data with
  | [a, b, c] =>
    match digitsToNat? a, digitsToNat? b, digitsToNat? c with
    | some x, some y, some z => some (Version.mk x y z)
    | _, _, _ => none
  | _ => none

/-- Modelled from the spec: `str(version)` renders the canonical
`"major.minor.patch"` form (§4.1). -/
def Version.toStr (v : Version) : String :=
  toString v.major ++ "." ++ toString v.minor ++ "." ++ toString v.patch

/-- Python `f"{n:02d}"`: decimal, left-padded with `0` to width 2. -/
def pad2 (n : Nat) : String :=
  if n < 10 then "0" ++ toString n else toString n

/-- `RECOMMENDED_ARDUINO_FRAMEWORK_VERSION = cv.Version(3, 0, 2)`. -/
def RECOMMENDED_ARDUINO_FRAMEWORK_VERSION : Version := Version.mk 3 0 2

/-- `ARDUINO_2_PLATFORM_VERSION = cv.Version(2, 6, 3)`. -/
def ARDUINO_2_PLATFORM_VERSION : Version := Version.mk 2 6 3

/-- `ARDUINO_3_PLATFORM_VERSION = cv.Version(3, 2, 0)`. -/
def ARDUINO_3_PLATFORM_VERSION : Version := Version.mk 3 2 0

/-- `RECOMMENDED_ESP_IDF_FRAMEWORK_VERSION = cv.Version(3, 4, 0)`. -/
def RECOMMENDED_ESP_IDF_FRAMEWORK_VERSION : Version := Version.mk 3 4 0

/-- `ESP_IDF_PLATFORM_VERSION = cv.Version(4, 2, 1)`. -/
def ESP_IDF_PLATFORM_VERSION : Version := Version.mk 4 2 1

/-- Embeds `_format_framework_arduino_version`: three buckets keyed by
`ver <= 2.4.1`, `ver <= 2.6.2`, else; each formats
`"~{bucket}.{major}{minor:02d}{patch:02d}.0"`. -/
def format_framework_arduino_version (ver : Version) : String :=
  if Version.le ver (Version.mk 2 4 1) then
    "~1." ++ toString ver.major ++ pad2 ver.minor ++ pad2 ver.patch ++ ".0"
  else if Version.le ver (Version.mk 2 6 2) then
    "~2." ++ toString ver.major ++ pad2 ver.minor ++ pad2 ver.patch ++ ".0"
  else
    "~3." ++ toString ver.major ++ pad2 ver.minor ++ pad2 ver.patch ++ ".0"

/-- Embeds `_format_framework_espidf_version`: `f"~v{major}.{minor}"`. -/
def format_framework_espidf_version (ver : Version) : String :=
  "~v" ++ toString ver.major ++ "." ++ toString ver.minor

/-- Embeds `_parse_platform_version`. The syntax check
`cv.platformio_version_constraint` lives in `esphome/config_validation.py`
(not under src/) and the design doc calls it only "a package-version-constraint
syntax check", so it is taken as a parameter `pvc`; when it accepts, the
default package is prefixed, otherwise the raw string is returned unchanged
(the source logs an error, a non-fatal warning per §7). -/
def parse_platform_version (pvc : String → Bool) (value : String) : String :=
  if pvc value then "platformio/espressif8266@" ++ value else value

/-- The `version`/`source`/`platform_version` slice of a framework
configuration dict: exactly the keys `_arduino_check_versions` and
`_esp_idf_check_versions` read and write. `none` models an absent key. -/
structure FrameworkConf where
  version : String
  source : Option String := none
  platform_version : Option String := none
deriving DecidableEq, Repr

/-- Python `source or fmt`: `fmt` when `source` is `None` or empty. -/
def source_or_default (source : Option String) (fmt : String) : String :=
  match source with
  | none => fmt
  | some s => if s = "" then fmt else s

/-- The `lookups` alias table of `_arduino_check_versions`. -/
def arduino_lookup (v : String) : Option (Version × Option String) :=
  if v = "dev" then some (Version.mk 3 0 2, some "https://github.com/esp8266/Arduino.git")
  else if v = "latest" then some (Version.mk 3 0 2, none)
  else if v = "recommended" then some (RECOMMENDED_ARDUINO_FRAMEWORK_VERSION, none)
  else none

/-- The `lookups` alias table of `_esp_idf_check_versions`. -/
def espidf_lookup (v : String) : Option (Version × Option String) :=
  if v = "dev" then
    some (Version.mk 3 4 0, some "https://github.com/espressif/ESP8266_RTOS_SDK.git")
  else if v = "latest" then
    some (Version.mk 3 4 0, some "https://github.com/espressif/ESP8266_RTOS_SDK.git")
  else if v = "recommended" then
    some (RECOMMENDED_ESP_IDF_FRAMEWORK_VERSION,
      some "https://github.com/espressif/ESP8266_RTOS_SDK.git")
  else none

/-- Embeds the platform-version defaulting block of `_arduino_check_versions`
(lines 218-226): keep an explicit value, otherwise derive the default by
version threshold and format it through `_parse_platform_version`. -/
def arduino_platform_version_value (pvc : String → Bool)
    (existing : Option String) (version : Version) : String :=
  match existing with
  | some pv => pv
  | none =>
    if Version.ge version (Version.mk 3 0 0) then
      parse_platform_version pvc (Version.toStr ARDUINO_3_PLATFORM_VERSION)
    else if Version.ge version (Version.mk 2 5 0) then
      parse_platform_version pvc (Version.toStr ARDUINO_2_PLATFORM_VERSION)
    else
      parse_platform_version pvc (Version.toStr (Version.mk 1 8 0))

/-- Embeds the platform-version defaulting line of `_esp_idf_check_versions`
(lines 268-270): `value.get(CONF_PLATFORM_VERSION, _parse_platform_version(str(ESP_IDF_PLATFORM_VERSION)))`. -/
def espidf_platform_version_value (pvc : String → Bool)
    (existing : Option String) : String :=
  match existing with
  | some pv => pv
  | none => parse_platform_version pvc (Version.toStr ESP_IDF_PLATFORM_VERSION)

/-- Embeds `_arduino_check_versions`: resolve aliases (rejecting an explicit
source next to an alias), otherwise parse the literal version; then fill
`version`, `source` and `platform_version`. -/
def arduino_check_versions (pvc : String → Bool) (value : FrameworkConf) :
    Except String FrameworkConf :=
  match arduino_lookup value.version with
  | some (version, source) =>
    if value.source.isSome then
      Except.error
        "Framework version needs to be explicitly specified when custom source is used."
    else
      Except.ok
        { version := Version.toStr version
        , source := some (source_or_default source (format_framework_arduino_version version))
        , platform_version :=
            some (arduino_platform_version_value pvc value.platform_version version) }
  | none =>
    match Version.parse value.version with
    | none => Except.error "Not a valid version number"
    | some version =>
      Except.ok
        { version := Version.toStr version
        , source :=
            some (source_or_default value.source (format_framework_arduino_version version))
        , platform_version :=
            some (arduino_platform_version_value pvc value.platform_version version) }

/-- Embeds `_esp_idf_check_versions`: same shape as the Arduino variant with
the RTOS-SDK alias table, source format and fixed platform default. -/
def esp_idf_check_versions (pvc : String → Bool) (value : FrameworkConf) :
    Except String FrameworkConf :=
  match espidf_lookup value.version with
  | some (version, source) =>
    if value.source.isSome then
      Except.error
        "Framework version needs to be explicitly specified when custom source is used."
    else
      Except.ok
        { version := Version.toStr version
        , source := some (source_or_default source (format_framework_espidf_version version))
        , platform_version :=
            some (espidf_platform_version_value pvc value.platform_version) }
  | none =>
    match Version.parse value.version with
    | none => Except.error "Not a valid version number"
    | some version =>
      Except.ok
        { version := Version.toStr version
        , source :=
            some (source_or_default value.source (format_framework_espidf_version version))
        , platform_version :=
            some (espidf_platform_version_value pvc value.platform_version) }

/-- Modelled from the spec: `PinInitialState` lives in `gpio.py`, which is
not under src/. §3 only says it is a per-GPIO desired boot-time state record
populated by a separate collaborator; `set_core_data` merely constructs 16
default instances, so we model it as a record with a default constructor. -/
structure PinInitialState where
deriving DecidableEq, Repr

/-- An entry of the component registry, as stored by `add_idf_component`
(the dict of `KEY_REPO`/`KEY_REF`/`KEY_PATH`/`KEY_REFRESH`/`KEY_COMPONENTS`/
`KEY_SUBMODULES`); the refresh `TimePeriod` is modelled as its length in
seconds. -/
structure IdfComponent where
  repo : String
  ref : Option String := none
  path : Option String := none
  refresh : Option Nat := none
  components : List String := []
  submodules : Option (List String) := none
deriving DecidableEq, Repr

/-- `CORE.data[KEY_ESP8266]`: each field models one dict key, `none` an
absent key (maps are insertion-ordered association lists, like Python
dicts). -/
structure Esp8266Data where
  board : Option String := none
  pin_initial_states : Option (List PinInitialState) := none
  sdkconfig_options : Option (List (String × String)) := none
  components : Option (List (String × IdfComponent)) := none
  extra_build_files : Option (List (String × String)) := none
deriving DecidableEq, Repr

/-- The slice of `CORE.data` this module touches: the `KEY_CORE` entries
plus `CORE.data[KEY_ESP8266]`. -/
structure CoreData where
  target_platform : Option String := none
  target_framework : Option String := none
  framework_version : Option Version := none
  esp8266 : Esp8266Data := {}
deriving DecidableEq, Repr

/-- Modelled from the spec: `CORE.using_esp_idf` lives in `esphome/core.py`
(not under src/); per the design doc the guard distinguishes "the active
target framework is the RTOS-SDK (esp-idf) variant", i.e. the target
framework tag stored by `set_core_data` equals `"esp-idf"`. -/
def using_esp_idf (core : CoreData) : Bool :=
  core.target_framework = some "esp-idf"

/-- Python `key in dict` / `dict[key]` on an insertion-ordered association
list. -/
def lookupName {α : Type} (n : String) : List (String × α) → Option α
  | [] => none
  | (m, c) :: rest => if m = n then some c else lookupName n rest

/-- Number of entries under a given key. -/
def countName {α : Type} (n : String) : List (String × α) → Nat
  | [] => 0
  | (m, _) :: rest => (if m = n then 1 else 0) + countName n rest

/-- Dict assignment `d[n] = c` (overwrites in place, appends when absent). -/
def dictInsert {α : Type} (d : List (String × α)) (n : String) (c : α) :
    List (String × α) :=
  match d with
  | [] => [(n, c)]
  | (m, x) :: rest => if m = n then (m, c) :: rest else (m, x) :: dictInsert rest n c

/-- The body of `add_idf_component` past its guard (lines 130-138):
`if name not in registry: registry[name] = entry` — insert-if-absent. -/
def registry_insert (reg : List (String × IdfComponent)) (name : String)
    (c : IdfComponent) : List (String × IdfComponent) :=
  if (lookupName name reg).isSome then reg else reg ++ [(name, c)]

/-- Embeds `add_idf_sdkconfig_option`: raise unless the project uses
esp-idf, then `CORE.data[KEY_ESP8266][KEY_SDKCONFIG_OPTIONS][name] = value`
(a `KeyError` surfaces when the options dict was never created). -/
def add_idf_sdkconfig_option (core : CoreData) (name : String) (value : String) :
    Except String CoreData :=
  if !(using_esp_idf core) then Except.error "Not an esp-idf project"
  else
    match core.esp8266.sdkconfig_options with
    | none => Except.error "KeyError: sdkconfig_options"
    | some opts =>
      Except.ok { core with esp8266 :=
        { core.esp8266 with sdkconfig_options := some (dictInsert opts name value) } }

/-- Embeds `add_idf_component`: raise unless the project uses esp-idf,
default `components` to `[]`, then insert-if-absent into
`CORE.data[KEY_ESP8266][KEY_COMPONENTS]`. -/
def add_idf_component (core : CoreData) (name : String) (repo : String)
    (ref : Option String) (path : Option String) (refresh : Option Nat)
    (components : Option (List String)) (submodules : Option (List String)) :
    Except String CoreData :=
  if !(using_esp_idf core) then Except.error "Not an esp-idf project"
  else
    let comps := components.getD []
    match core.esp8266.components with
    | none => Except.error "KeyError: components"
    | some reg =>
      Except.ok { core with esp8266 :=
        { core.esp8266 with components := some (registry_insert reg name
            { repo := repo, ref := ref, path := path, refresh := refresh
            , components := comps, submodules := submodules }) } }

/-- The two discriminator values of `FRAMEWORK_SCHEMA`:
`FRAMEWORK_ARDUINO = "arduino"` and `FRAMEWORK_ESP_IDF = "esp8266-rtos-sdk"`. -/
inductive FrameworkType
  | arduino
  | espIdf
deriving DecidableEq, Repr

/-- A component `source` as produced by `cv.SOURCE_SCHEMA`: a git source
(url, optional ref) or a local source (path). -/
inductive ComponentSource
  | git (url : String) (ref : Option String)
  | localSource (path : String)
deriving DecidableEq, Repr

/-- A validated entry of the esp-idf framework `components` list
(schema lines 346-357); the `refresh` duration is modelled in seconds
(`"1d"` default = 86400). -/
structure ComponentConf where
  name : String
  source : ComponentSource
  path : Option String := none
  refresh : Nat := 86400
deriving DecidableEq, Repr

/-- A validated framework block: the dict after `FRAMEWORK_SCHEMA` ran.
Per-variant keys are `none` when the other variant was selected, matching
the Python dict's absent keys. -/
structure FrameworkBlock where
  type : FrameworkType
  conf : FrameworkConf
  restore_from_flash : Option Bool := none
  early_pin_init : Option Bool := none
  board_flash_mode : Option String := none
  sdkconfig_options : Option (List (String × String)) := none
  components : Option (List ComponentConf) := none
deriving DecidableEq, Repr

/-- A validated top-level esp8266 block: the dict after `CONFIG_SCHEMA`'s
inner `cv.Schema` ran. -/
structure Config where
  board : String
  flash_size : String
  partitions : Option String := none
  framework : FrameworkBlock
deriving DecidableEq, Repr

/-- Embeds `set_core_data`: reset `CORE.data[KEY_ESP8266]` to a fresh dict,
store the platform tag, the per-variant framework tag (creating the empty
sdkconfig-options and components dicts only for esp-idf), parse and store
the framework version, and store the board, the 16 fresh
`PinInitialState()` slots and the empty extra-build-files dict. Returns
`none` when the version string does not parse (Python would raise). -/
def set_core_data (core : CoreData) (config : Config) : Option CoreData :=
  let core1 : CoreData := { core with esp8266 := {}, target_platform := some "esp8266" }
  let core2 : CoreData :=
    match config.framework.type with
    | FrameworkType.espIdf =>
      { core1 with
        target_framework := some "esp-idf",
        esp8266 := { core1.esp8266 with
                     sdkconfig_options := some [], components := some [] } }
    | FrameworkType.arduino => { core1 with target_framework := some "arduino" }
  match Version.parse config.framework.conf.version with
  | none => none
  | some v =>
    some { core2 with
           framework_version := some v,
           esp8266 := { core2.esp8266 with
                        board := some config.board,
                        pin_initial_states := some (List.replicate 16 ({} : PinInitialState)),
                        extra_build_files := some [] } }

/-- Embeds `final_validate`: `platformio_options` is the set of keys of
`full_config[CONF_ESPHOME][CONF_PLATFORMIO_OPTIONS]` (`none` when the block
is absent, in which case the config passes through unchecked); a declared
`partitions` file next to a global `board_build.partitions` key fails, and
a global `board_upload.flash_size` key always fails. -/
def final_validate (platformio_options : Option (List String)) (config : Config) :
    Except String Config :=
  match platformio_options with
  | none => Except.ok config
  | some opts =>
    if config.partitions.isSome && opts.contains "board_build.partitions" then
      Except.error
        "Do not specify 'board_build.partitions' in 'platformio_options' with 'partitions' in esp8266"
    else if opts.contains "board_upload.flash_size" then
      Except.error "Please specify flash_size within esp8266 configuration only"
    else
      Except.ok config

/-- Embeds the linker-script selection of `to_code` (lines 535-549) for a
board with a `BOARDS` table entry whose flash size maps to the pair
`ld_scripts` (the static `boards.py` tables are not under src/ and do not
take part in the version policy). The source reads
`if ver <= 2.3.0: ld_script = None`, followed by a separate plain `if`
(not `elif`) `if ver <= 2.4.2: ld_script = ld_scripts[0] else: ld_script = ld_scripts[1]`;
the second statement assigns on both of its paths, so the first assignment
is always overwritten and the selection is decided by the `<= 2.4.2` test
alone. The `board_build.ldscript` option is then emitted iff the result is
`some`. -/
def select_ld_script (ver : Version) (ld_scripts : String × String) : Option String :=
  if Version.le ver (Version.mk 2 4 2) then some ld_scripts.1 else some ld_scripts.2

/-- Embeds the component loop body of `to_code` (lines 474-485): a git
source calls `add_idf_component` (name, repo url, ref, path, refresh; the
sub-component and submodule arguments are left to their defaults); a local
source only logs "Local components are not implemented yet." and registers
nothing. Returns the updated registry and the warnings logged. -/
def process_component (reg : List (String × IdfComponent)) (c : ComponentConf) :
    List (String × IdfComponent) × List String :=
  match c.source with
  | ComponentSource.git url ref =>
    (registry_insert reg c.name
      { repo := url, ref := ref, path := c.path, refresh := some c.refresh
      , components := [], submodules := none }, [])
  | ComponentSource.localSource _ =>
    (reg, ["Local components are not implemented yet."])

/-- `BUILD_FLASH_MODES = ["qio", "qout", "dio", "dout"]`. -/
def BUILD_FLASH_MODES : List String := ["qio", "qout", "dio", "dout"]

/-- `FLASH_SIZES = ["2MB", "4MB", "8MB", "16MB"]`. -/
def FLASH_SIZES : List String := ["2MB", "4MB", "8MB", "16MB"]

/-- The raw (pre-validation) framework block as written by the user; `none`
is an omitted key. Scalars arrive already typed (the `cv.string_strict` /
`cv.boolean` coercions are structural and outside this fragment). -/
structure RawFramework where
  type : Option String := none
  version : Option String := none
  source : Option String := none
  platform_version : Option String := none
  restore_from_flash : Option Bool := none
  early_pin_init : Option Bool := none
  board_flash_mode : Option String := none
  sdkconfig_options : Option (List (String × String)) := none
  components : Option (List ComponentConf) := none
deriving DecidableEq, Repr

/-- The raw (pre-validation) top-level esp8266 block. -/
structure RawConfig where
  board : Option String := none
  flash_size : Option String := none
  partitions : Option String := none
  framework : Option RawFramework := none
deriving DecidableEq, Repr

/-- Modelled from the spec: the `cv.typed_schema(..., lower=True, space="-",
default_type=FRAMEWORK_ARDUINO)` discriminator handling lives in
`esphome/config_validation.py` (not under src/); per §4.4 an absent
`framework.type` selects the default `"arduino"` variant, and the key is
case-normalized to lower with spaces replaced by `"-"`. -/
def normalize_type_key (t : Option String) : String :=
  match t with
  | none => "arduino"
  | some s => String.mk (s.data.map (fun c => if Char.toLower c = ' ' then '-' else Char.toLower c))

/-- Embeds `ARDUINO_FRAMEWORK_SCHEMA`: apply the declared defaults
(`version="recommended"`, `restore_from_flash=False`, `early_pin_init=True`,
`board_flash_mode="dout"` case-normalized to lower against
`BUILD_FLASH_MODES`, an explicit `platform_version` passed through
`_parse_platform_version`), then run `_arduino_check_versions`. The
`cv.Schema`/`cv.Optional`/`cv.one_of` semantics are modelled from the spec
(§4.4), their declarations being the only part under src/. -/
def normalize_arduino_framework (pvc : String → Bool) (raw : RawFramework) :
    Except String FrameworkBlock :=
  let mode := toLowerStr (raw.board_flash_mode.getD "dout")
  if !(BUILD_FLASH_MODES.contains mode) then
    Except.error "board_flash_mode: one_of"
  else
    match arduino_check_versions pvc
        { version := raw.version.getD "recommended",
          source := raw.source,
          platform_version := raw.platform_version.map (parse_platform_version pvc) } with
    | Except.error e => Except.error e
    | Except.ok conf =>
      Except.ok { type := FrameworkType.arduino,
                  conf := conf,
                  restore_from_flash := some (raw.restore_from_flash.getD false),
                  early_pin_init := some (raw.early_pin_init.getD true),
                  board_flash_mode := some mode }

/-- Embeds `ESP_IDF_FRAMEWORK_SCHEMA`: apply the declared defaults
(`version="recommended"`, `sdkconfig_options={}`, `components=[]`, an
explicit `platform_version` passed through `_parse_platform_version`), then
run `_esp_idf_check_versions`. -/
def normalize_espidf_framework (pvc : String → Bool) (raw : RawFramework) :
    Except String FrameworkBlock :=
  match esp_idf_check_versions pvc
      { version := raw.version.getD "recommended",
        source := raw.source,
        platform_version := raw.platform_version.map (parse_platform_version pvc) } with
  | Except.error e => Except.error e
  | Except.ok conf =>
    Except.ok { type := FrameworkType.espIdf,
                conf := conf,
                sdkconfig_options := some (raw.sdkconfig_options.getD []),
                components := some (raw.components.getD []) }

/-- Embeds `FRAMEWORK_SCHEMA`: dispatch on the normalized discriminator
(an absent block defaults to `{}` per `cv.Optional(CONF_FRAMEWORK, default={})`). -/
def normalize_framework (pvc : String → Bool) (raw : Option RawFramework) :
    Except String FrameworkBlock :=
  let fw := raw.getD {}
  let key := normalize_type_key fw.type
  if key = "arduino" then normalize_arduino_framework pvc fw
  else if key = "esp8266-rtos-sdk" then normalize_espidf_framework pvc fw
  else Except.error "framework.type: unknown value"

/-- Embeds `CONFIG_SCHEMA`'s inner `cv.Schema`: `board` required;
`flash_size` defaulted to `"4MB"` and case-normalized to upper against
`FLASH_SIZES`; `partitions` optional (the `cv.file_` existence check is a
filesystem effect outside the model, the path passes through); `framework`
defaulted to `{}` and dispatched. The combinator semantics
(`cv.Required`/`cv.Optional`/`cv.one_of(..., upper=True)`) are modelled
from the spec (§4.4); the field/default/enum declarations are from src.
`CONFIG_SCHEMA`'s trailing `set_core_data` hook is modelled separately. -/
def normalize_config (pvc : String → Bool) (raw : RawConfig) : Except String Config :=
  match raw.board with
  | none => Except.error "board: required key not provided"
  | some board =>
    if !(FLASH_SIZES.contains (toUpperStr (raw.flash_size.getD "4MB"))) then
      Except.error "flash_size: one_of"
    else
      match normalize_framework pvc raw.framework with
      | Except.error e => Except.error e
      | Except.ok fw =>
        Except.ok { board := board,
                    flash_size := toUpperStr (raw.flash_size.getD "4MB"),
                    partitions := raw.partitions, framework := fw }

/-- A sample validated Arduino-variant configuration (board `nodemcuv2`,
all defaults, recommended version resolved). -/
def sampleArduinoConfig : Config :=
  { board := "nodemcuv2", flash_size := "4MB",
    framework := { type := FrameworkType.arduino,
                   conf := { version := "3.0.2", source := some "~3.30002.0",
                             platform_version := some "platformio/espressif8266@3.2.0" },
                   restore_from_flash := some false, early_pin_init := some true,
                   board_flash_mode := some "dout" } }

/-- A sample validated RTOS-SDK-variant configuration. -/
def sampleEspidfConfig : Config :=
  { board := "esp01_1m", flash_size := "4MB",
    framework := { type := FrameworkType.espIdf,
                   conf := { version := "3.4.0",
                             source := some "https://github.com/espressif/ESP8266_RTOS_SDK.git",
                             platform_version := some "platformio/espressif8266@4.2.1" },
                   sdkconfig_options := some [], components := some [] } }

theorem lookupName_append_of_none {α : Type} (n : String) (l1 l2 : List (String × α))
    (h : lookupName n l1 = none) : lookupName n (l1 ++ l2) = lookupName n l2 := by
  induction l1 with
  | nil => rfl
  | cons p rest ih =>
    obtain ⟨m, c⟩ := p
    by_cases hm : m = n
    · simp [lookupName, hm] at h
    · simp only [lookupName, hm, if_false] at h
      show lookupName n ((m, c) :: (rest ++ l2)) = lookupName n l2
      simp only [lookupName, hm, if_false]
      exact ih h

theorem countName_append {α : Type} (n : String) (l1 l2 : List (String × α)) :
    countName n (l1 ++ l2) = countName n l1 + countName n l2 := by
  induction l1 with
  | nil => simp [countName]
  | cons p rest ih =>
    obtain ⟨m, c⟩ := p
    show (if m = n then 1 else 0) + countName n (rest ++ l2) =
      ((if m = n then 1 else 0) + countName n rest) + countName n l2
    rw [ih, Nat.add_assoc]

theorem countName_eq_zero_of_lookupName_none {α : Type} (n : String)
    (l : List (String × α)) (h : lookupName n l = none) : countName n l = 0 := by
  induction l with
  | nil => rfl
  | cons p rest ih =>
    obtain ⟨m, c⟩ := p
    by_cases hm : m = n
    · simp [lookupName, hm] at h
    · simp only [lookupName, hm, if_false] at h
      simp [countName, hm, ih h]

/-- C1: the code violates the claimed three-way linker-script policy. The
resolved version 2.2.0 lies in the `<= 2.3.0` bucket, for which the claim
(and the source's own `# No ld script support` comment) says no
linker-script directive is emitted — yet the selection still yields the
legacy script, because the `ld_script = None` assignment is unconditionally
overwritten by the following non-`elif` `if`/`else` on `<= 2.4.2`. -/
theorem c1_ld_script_policy_violated :
    Version.le (Version.mk 2 2 0) (Version.mk 2 3 0) = true
    ∧ select_ld_script (Version.mk 2 2 0) ("legacy.ld", "current.ld") = some "legacy.ld"
    ∧ select_ld_script (Version.mk 2 4 0) ("legacy.ld", "current.ld") = some "legacy.ld"
    ∧ select_ld_script (Version.mk 2 7 0) ("legacy.ld", "current.ld") = some "current.ld" := by
  refine ⟨by decide, by decide, by decide, by decide⟩

/-- C2: under either framework variant, an alias version (`"dev"`,
`"latest"` or `"recommended"`) combined with an explicit `source` key makes
version checking fail with the conflict message; no such input passes. -/
theorem c2_alias_with_source_conflict (pvc : String → Bool) (value : FrameworkConf)
    (halias : value.version = "dev" ∨ value.version = "latest" ∨ value.version = "recommended")
    (hsource : value.source.isSome = true) :
    arduino_check_versions pvc value =
      Except.error "Framework version needs to be explicitly specified when custom source is used."
    ∧ esp_idf_check_versions pvc value =
      Except.error "Framework version needs to be explicitly specified when custom source is used." := by
  rcases halias with h | h | h <;>
    simp [arduino_check_versions, esp_idf_check_versions, arduino_lookup, espidf_lookup,
      h, hsource]

theorem c2_alias_with_source_conflict_witness :
    arduino_check_versions (fun _ => true)
      { version := "recommended", source := some "https://github.com/example/arduino.git" } =
      Except.error "Framework version needs to be explicitly specified when custom source is used." :=
  (c2_alias_with_source_conflict (fun _ => true)
    { version := "recommended", source := some "https://github.com/example/arduino.git" }
    (Or.inr (Or.inr rfl)) rfl).1

/-- C3 counterexample: the code formats Arduino version 2.4.1 (bucket 1) as
`"~1.20401.0"` — `~1` + major `2`, minor `04`, patch `01` — not the
`"~1.240100.0"` the claim states. -/
theorem c3_bucket1_string_counterexample :
    format_framework_arduino_version (Version.mk 2 4 1) = "~1.20401.0"
    ∧ format_framework_arduino_version (Version.mk 2 4 1) ≠ "~1.240100.0" := by
  refine ⟨by decide, by decide⟩

/-- C3 (amended): with no explicit source, the synthesized source string is
the framework-specific format of the resolved version: Arduino uses three
buckets keyed by `<= 2.4.1`, `<= 2.6.2`, else (2.4.1 gives `"~1.20401.0"`,
2.6.2 gives `"~2.20602.0"`, 3.0.2 gives `"~3.30002.0"`), and RTOS-SDK gives
`"~v{major}.{minor}"`. -/
theorem c3_source_synthesis (pvc : String → Bool) (value : FrameworkConf) (ver : Version)
    (haliasA : arduino_lookup value.version = none)
    (haliasE : espidf_lookup value.version = none)
    (hparse : Version.parse value.version = some ver)
    (hnosrc : value.source = none) :
    (∃ r, arduino_check_versions pvc value = Except.ok r
        ∧ r.source = some (format_framework_arduino_version ver))
    ∧ (∃ r, esp_idf_check_versions pvc value = Except.ok r
        ∧ r.source = some (format_framework_espidf_version ver))
    ∧ format_framework_arduino_version (Version.mk 2 4 1) = "~1.20401.0"
    ∧ format_framework_arduino_version (Version.mk 2 6 2) = "~2.20602.0"
    ∧ format_framework_arduino_version (Version.mk 3 0 2) = "~3.30002.0"
    ∧ format_framework_espidf_version ver =
        "~v" ++ toString ver.major ++ "." ++ toString ver.minor := by
  have hA : arduino_check_versions pvc value = Except.ok
      { version := Version.toStr ver,
        source := some (format_framework_arduino_version ver),
        platform_version := some (arduino_platform_version_value pvc value.platform_version ver) } := by
    simp [arduino_check_versions, haliasA, hparse, hnosrc, source_or_default]
  have hE : esp_idf_check_versions pvc value = Except.ok
      { version := Version.toStr ver,
        source := some (format_framework_espidf_version ver),
        platform_version := some (espidf_platform_version_value pvc value.platform_version) } := by
    simp [esp_idf_check_versions, haliasE, hparse, hnosrc, source_or_default]
  exact ⟨⟨_, hA, rfl⟩, ⟨_, hE, rfl⟩, by decide, by decide, by decide, rfl⟩

theorem c3_source_synthesis_witness :
    ∃ r, arduino_check_versions (fun _ => true) { version := "2.4.1" } = Except.ok r
        ∧ r.source = some "~1.20401.0" := by
  obtain ⟨r, hr, hs⟩ :=
    (c3_source_synthesis (fun _ => true) { version := "2.4.1" } (Version.mk 2 4 1)
      (by decide) (by decide) (by decide) rfl).1
  exact ⟨r, hr, hs.trans (by decide)⟩

/-- C4: component registration is insert-if-absent and idempotent by name:
after a first registration under a fresh name, a second registration under
the same name leaves the registry unchanged, the surviving entry is the
first one registered, and exactly one entry carries that name. -/
theorem c4_registry_first_wins (reg : List (String × IdfComponent)) (n : String)
    (c d : IdfComponent) (h : lookupName n reg = none) :
    registry_insert reg n c = reg ++ [(n, c)]
    ∧ registry_insert (registry_insert reg n c) n d = registry_insert reg n c
    ∧ lookupName n (registry_insert (registry_insert reg n c) n d) = some c
    ∧ countName n (registry_insert (registry_insert reg n c) n d) = 1 := by
  have h1 : registry_insert reg n c = reg ++ [(n, c)] := by
    simp [registry_insert, h]
  have hl : lookupName n (reg ++ [(n, c)]) = some c := by
    rw [lookupName_append_of_none n reg _ h]
    simp [lookupName]
  have h2 : registry_insert (reg ++ [(n, c)]) n d = reg ++ [(n, c)] := by
    simp [registry_insert, hl]
  have hc : countName n (reg ++ [(n, c)]) = 1 := by
    rw [countName_append, countName_eq_zero_of_lookupName_none n reg h]
    simp [countName]
  refine ⟨h1, ?_, ?_, ?_⟩ <;> rw [h1, h2]
  · exact hl
  · exact hc

theorem c4_registry_first_wins_witness :
    lookupName "mdns"
      (registry_insert (registry_insert [] "mdns" { repo := "https://github.com/a/a.git" })
        "mdns" { repo := "https://github.com/b/b.git" }) =
      some { repo := "https://github.com/a/a.git" } :=
  (c4_registry_first_wins [] "mdns" { repo := "https://github.com/a/a.git" }
    { repo := "https://github.com/b/b.git" } rfl).2.2.1

theorem final_validate_some (opts : List String) (config : Config) :
    final_validate (some opts) config =
      if (config.partitions.isSome && opts.contains "board_build.partitions") then
        Except.error
          "Do not specify 'board_build.partitions' in 'platformio_options' with 'partitions' in esp8266"
      else if opts.contains "board_upload.flash_size" then
        Except.error "Please specify flash_size within esp8266 configuration only"
      else Except.ok config := rfl

/-- C5: cross-validation fails whenever (a) this block declares a
`partitions` file and the global `platformio_options` block carries a
`board_build.partitions` key, or (b) that block carries a
`board_upload.flash_size` key; otherwise (including when the global block
is absent) the configuration is returned unchanged. -/
theorem c5_final_validate_conflicts (opts : List String) (config : Config) :
    ((config.partitions.isSome = true ∧ opts.contains "board_build.partitions" = true) ∨
        opts.contains "board_upload.flash_size" = true →
      ∃ e, final_validate (some opts) config = Except.error e)
    ∧ (¬(config.partitions.isSome = true ∧ opts.contains "board_build.partitions" = true) →
        opts.contains "board_upload.flash_size" = false →
        final_validate (some opts) config = Except.ok config)
    ∧ final_validate none config = Except.ok config := by
  refine ⟨?_, ?_, rfl⟩
  · rintro (⟨h1, h2⟩ | h)
    · exact ⟨_, by
        rw [final_validate_some, if_pos (show (config.partitions.isSome
          && opts.contains "board_build.partitions") = true by rw [h1, h2]; rfl)]⟩
    · by_cases hp : (config.partitions.isSome && opts.contains "board_build.partitions") = true
      · exact ⟨_, by rw [final_validate_some, if_pos hp]⟩
      · exact ⟨_, by rw [final_validate_some, if_neg hp, if_pos h]⟩
  · intro hna hb
    have hand : ¬((config.partitions.isSome
        && opts.contains "board_build.partitions") = true) := by
      rw [Bool.and_eq_true]; exact hna
    rw [final_validate_some, if_neg hand, if_neg (by rw [hb]; simp)]

theorem c5_final_validate_conflicts_witness :
    ∃ e, final_validate (some ["board_build.partitions"])
        { sampleArduinoConfig with partitions := some "custom.csv" } = Except.error e :=
  (c5_final_validate_conflicts ["board_build.partitions"]
    { sampleArduinoConfig with partitions := some "custom.csv" }).1 (Or.inl ⟨rfl, rfl⟩)

/-- C6 counterexample: for an accepted Arduino-variant configuration the
post-parse hook leaves the SDK-option and component maps absent (`none`)
rather than populating them as empty maps; the claim's "empty SDK-option,
component, and extra-build-file maps" for every variant fails. -/
theorem c6_arduino_maps_absent :
    (set_core_data {} sampleArduinoConfig).map
        (fun c => (c.esp8266.sdkconfig_options, c.esp8266.components)) =
      some (none, none) := by
  decide

/-- C6 (amended): the post-parse hook stores the platform tag, the
per-variant framework tag, the parsed framework version, the board, a
fresh 16-slot pin-state array and an empty extra-build-file map; the empty
SDK-option and component maps are created only under the RTOS-SDK variant
and left absent under Arduino. -/
theorem c6_set_core_data (core : CoreData) (config : Config) (v : Version)
    (hv : Version.parse config.framework.conf.version = some v) :
    set_core_data core config = some
      { target_platform := some "esp8266",
        target_framework := some (match config.framework.type with
          | FrameworkType.arduino => "arduino"
          | FrameworkType.espIdf => "esp-idf"),
        framework_version := some v,
        esp8266 :=
          { board := some config.board,
            pin_initial_states := some (List.replicate 16 ({} : PinInitialState)),
            sdkconfig_options := match config.framework.type with
              | FrameworkType.arduino => none
              | FrameworkType.espIdf => some [],
            components := match config.framework.type with
              | FrameworkType.arduino => none
              | FrameworkType.espIdf => some [],
            extra_build_files := some [] } } := by
  cases ht : config.framework.type <;> simp [set_core_data, ht, hv]

theorem c6_set_core_data_witness :
    set_core_data {} sampleEspidfConfig = some
      { target_platform := some "esp8266",
        target_framework := some "esp-idf",
        framework_version := some (Version.mk 3 4 0),
        esp8266 :=
          { board := some "esp01_1m",
            pin_initial_states := some (List.replicate 16 ({} : PinInitialState)),
            sdkconfig_options := some [],
            components := some [],
            extra_build_files := some [] } } :=
  c6_set_core_data {} sampleEspidfConfig (Version.mk 3 4 0) (by decide)

/-- C7: with no explicit platform-package version, Arduino derives the
default by threshold (>= 3.0.0 gives 3.2.0, >= 2.5.0 gives 2.6.3, else
1.8.0) and RTOS-SDK the fixed 4.2.1; the default is passed through
`_parse_platform_version`, which yields the
`platformio/espressif8266@{version}` package reference when the
version-constraint check accepts and the raw string unchanged when it
fails. -/
theorem c7_platform_version_defaults (pvc : String → Bool) (version : Version) (s : String) :
    arduino_platform_version_value pvc none version =
      (if Version.ge version (Version.mk 3 0 0) then parse_platform_version pvc "3.2.0"
       else if Version.ge version (Version.mk 2 5 0) then parse_platform_version pvc "2.6.3"
       else parse_platform_version pvc "1.8.0")
    ∧ espidf_platform_version_value pvc none = parse_platform_version pvc "4.2.1"
    ∧ (pvc s = true → parse_platform_version pvc s = "platformio/espressif8266@" ++ s)
    ∧ (pvc s = false → parse_platform_version pvc s = s) := by
  refine ⟨rfl, rfl, ?_, ?_⟩ <;> intro h <;> simp [parse_platform_version, h]

theorem c7_platform_version_defaults_witness :
    arduino_platform_version_value (fun _ => true) none (Version.mk 3 0 2) =
      "platformio/espressif8266@3.2.0"
    ∧ arduino_platform_version_value (fun _ => true) none (Version.mk 2 5 0) =
      "platformio/espressif8266@2.6.3"
    ∧ arduino_platform_version_value (fun _ => true) none (Version.mk 2 4 2) =
      "platformio/espressif8266@1.8.0"
    ∧ espidf_platform_version_value (fun _ => true) none =
      "platformio/espressif8266@4.2.1"
    ∧ parse_platform_version (fun _ => false) "not a constraint" = "not a constraint" := by
  have h1 := c7_platform_version_defaults (fun _ => true) (Version.mk 3 0 2) "x"
  have h2 := c7_platform_version_defaults (fun _ => true) (Version.mk 2 5 0) "x"
  have h3 := c7_platform_version_defaults (fun _ => true) (Version.mk 2 4 2) "x"
  have h4 := c7_platform_version_defaults (fun _ => false) (Version.mk 3 0 2) "not a constraint"
  refine ⟨h1.1.trans (by decide), h2.1.trans (by decide), h3.1.trans (by decide),
    h1.2.1.trans (by decide), h4.2.2.2 rfl⟩

/-- C8: during directive emission a local-sourced component is accepted
but only logs the warning and leaves the registry untouched, while a
git-sourced component is registered (insert-if-absent) with no warning —
so only git sources can produce registry entries. -/
theorem c8_local_components_warn_only (reg : List (String × IdfComponent))
    (c : ComponentConf) :
    (∀ p, c.source = ComponentSource.localSource p →
      process_component reg c = (reg, ["Local components are not implemented yet."]))
    ∧ (∀ url ref, c.source = ComponentSource.git url ref →
      process_component reg c =
        (registry_insert reg c.name
          { repo := url, ref := ref, path := c.path, refresh := some c.refresh,
            components := [], submodules := none }, [])) := by
  constructor
  · intro p hp
    simp [process_component, hp]
  · intro url ref hg
    simp [process_component, hg]

theorem c8_local_components_warn_only_witness :
    process_component []
      { name := "foo", source := ComponentSource.localSource "components/foo" } =
      ([], ["Local components are not implemented yet."]) :=
  (c8_local_components_warn_only []
    { name := "foo", source := ComponentSource.localSource "components/foo" }).1
    "components/foo" rfl

theorem normalize_config_no_board (pvc : String → Bool) (raw : RawConfig)
    (hb : raw.board = none) :
    normalize_config pvc raw = Except.error "board: required key not provided" := by
  unfold normalize_config
  rw [hb]

theorem normalize_config_some_board (pvc : String → Bool) (raw : RawConfig) (board : String)
    (hb : raw.board = some board) :
    normalize_config pvc raw =
      if !(FLASH_SIZES.contains (toUpperStr (raw.flash_size.getD "4MB"))) then
        Except.error "flash_size: one_of"
      else
        match normalize_framework pvc raw.framework with
        | Except.error e => Except.error e
        | Except.ok fw =>
          Except.ok { board := board,
                      flash_size := toUpperStr (raw.flash_size.getD "4MB"),
                      partitions := raw.partitions, framework := fw } := by
  unfold normalize_config
  rw [hb]

/-- C9: schema normalization requires `board`; defaults `flash_size` to
`"4MB"`, upper-cases it and rejects values outside the four-value enum; and
resolves an absent framework block to the Arduino variant with
`restore_from_flash = false`, `early_pin_init = true` and
`board_flash_mode = "dout"` (one of qio/qout/dio/dout, case-normalized to
lower). -/
theorem c9_schema_defaults (pvc : String → Bool) :
    (∃ cfg, normalize_config pvc { board := some "nodemcuv2" } = Except.ok cfg
      ∧ cfg.flash_size = "4MB"
      ∧ cfg.framework.type = FrameworkType.arduino
      ∧ cfg.framework.restore_from_flash = some false
      ∧ cfg.framework.early_pin_init = some true
      ∧ cfg.framework.board_flash_mode = some "dout")
    ∧ normalize_config pvc { board := none } =
        Except.error "board: required key not provided"
    ∧ (∃ cfg, normalize_config pvc { board := some "b", flash_size := some "16mb" } =
          Except.ok cfg ∧ cfg.flash_size = "16MB")
    ∧ (∃ e, normalize_config pvc { board := some "b", flash_size := some "1MB" } =
          Except.error e)
    ∧ (∀ raw cfg, normalize_config pvc raw = Except.ok cfg →
        cfg.flash_size ∈ FLASH_SIZES)
    ∧ (∃ cfg, normalize_config pvc
          { board := some "b",
            framework := some { board_flash_mode := some "QIO" } } = Except.ok cfg
        ∧ cfg.framework.board_flash_mode = some "qio")
    ∧ (∃ e, normalize_config pvc
          { board := some "b",
            framework := some { board_flash_mode := some "fast" } } = Except.error e) := by
  refine ⟨⟨_, rfl, rfl, rfl, rfl, rfl, rfl⟩, rfl, ⟨_, rfl, rfl⟩, ⟨_, rfl⟩, ?_,
    ⟨_, rfl, rfl⟩, ⟨_, rfl⟩⟩
  intro raw cfg h
  cases hb : raw.board with
  | none =>
    rw [normalize_config_no_board pvc raw hb] at h
    exact absurd h (by simp)
  | some board =>
    rw [normalize_config_some_board pvc raw board hb] at h
    by_cases hfs : FLASH_SIZES.contains (toUpperStr (raw.flash_size.getD "4MB")) = true
    · rw [if_neg (by rw [hfs]; simp)] at h
      cases hnf : normalize_framework pvc raw.framework with
      | error e =>
        rw [hnf] at h
        exact absurd h (by simp)
      | ok fw =>
        rw [hnf] at h
        cases h
        exact List.mem_of_elem_eq_true hfs
    · have hx : FLASH_SIZES.contains (toUpperStr (raw.flash_size.getD "4MB")) = false := by
        cases hy : FLASH_SIZES.contains (toUpperStr (raw.flash_size.getD "4MB"))
        · rfl
        · exact absurd hy hfs
      rw [if_pos (by rw [hx]; rfl)] at h
      exact absurd h (by simp)

theorem c9_schema_defaults_witness :
    ∃ cfg, normalize_config (fun _ => true) { board := some "nodemcuv2" } = Except.ok cfg
      ∧ cfg.flash_size = "4MB"
      ∧ cfg.framework.type = FrameworkType.arduino
      ∧ cfg.framework.restore_from_flash = some false
      ∧ cfg.framework.early_pin_init = some true
      ∧ cfg.framework.board_flash_mode = some "dout" :=
  (c9_schema_defaults (fun _ => true)).1


/-- C10: `add_idf_sdkconfig_option` and `add_idf_component` both fail with
`ValueError("Not an esp-idf project")` whenever the active target framework
is not esp-idf (in this functional embedding an error result carries no new
state, so the build context is untouched); under the RTOS-SDK variant —
target framework tag `"esp-idf"` with the maps `set_core_data` creates —
neither call fails. -/
theorem c10_idf_guard (core : CoreData) (name repo value : String)
    (ref path : Option String) (refresh : Option Nat)
    (components : Option (List String)) (submodules : Option (List String)) :
    (using_esp_idf core = false →
      add_idf_sdkconfig_option core name value = Except.error "Not an esp-idf project"
      ∧ add_idf_component core name repo ref path refresh components submodules =
          Except.error "Not an esp-idf project")
    ∧ (using_esp_idf core = true →
      ∀ opts reg, core.esp8266.sdkconfig_options = some opts →
        core.esp8266.components = some reg →
        (∃ c, add_idf_sdkconfig_option core name value = Except.ok c)
        ∧ (∃ c, add_idf_component core name repo ref path refresh components submodules =
            Except.ok c)) := by
  constructor
  · intro h
    constructor <;> simp [add_idf_sdkconfig_option, add_idf_component, h]
  · intro h opts reg hopts hreg
    constructor
    · refine ⟨{ core with esp8266 := { core.esp8266 with
          sdkconfig_options := some (dictInsert opts name value) } }, ?_⟩
      simp [add_idf_sdkconfig_option, h, hopts]
    · refine ⟨{ core with esp8266 := { core.esp8266 with
          components := some (registry_insert reg name
            { repo := repo, ref := ref, path := path, refresh := refresh,
              components := components.getD [], submodules := submodules }) } }, ?_⟩
      simp [add_idf_component, h, hreg]

theorem c10_idf_guard_witness :
    add_idf_sdkconfig_option { target_framework := some "arduino" }
        "CONFIG_FREERTOS_HZ" "1000" = Except.error "Not an esp-idf project"
    ∧ (∃ c, add_idf_sdkconfig_option
        { target_framework := some "esp-idf",
          esp8266 := { sdkconfig_options := some [], components := some [] } }
        "CONFIG_FREERTOS_HZ" "1000" = Except.ok c) := by
  have h1 := c10_idf_guard { target_framework := some "arduino" }
    "CONFIG_FREERTOS_HZ" "r" "1000" none none none none none
  have h2 := c10_idf_guard
    { target_framework := some "esp-idf",
      esp8266 := { sdkconfig_options := some [], components := some [] } }
    "CONFIG_FREERTOS_HZ" "r" "1000" none none none none none
  exact ⟨(h1.1 rfl).1, ((h2.2 rfl) [] [] rfl rfl).1⟩

end Esp8266
